import Mathlib

/-!
Shallow embedding of the storefront review proxy route
(`app/routes/api.proxy.reviews.ts`) together with the data model declared by
the prisma migrations.  Pure JavaScript value coercions (`Number`, `String`,
`BigInt`, truthiness, `??`, `||`) are modelled explicitly; the persistence
layer is modelled as a chronological list of review records, with the two
store operations the route performs recorded on each outcome.
-/

namespace ReviewApp

/-- A JavaScript number: NaN, the two infinities, or a finite value.  Finite
values are modelled as rationals; the route only compares numbers against
small integer bounds, where binary floating point and exact rational
arithmetic agree. -/
inductive JsNum where
  | nan
  | posInf
  | negInf
  | fin (q : ℚ)
deriving DecidableEq, Repr

/-- A JSON / form field value.  JavaScript `undefined` is represented by the
absence of the key (an `Option` at use sites). -/
inductive Val where
  | str (s : String)
  | num (n : JsNum)
  | boolean (b : Bool)
  | null
deriving DecidableEq, Repr

/-- JavaScript truthiness of a number: NaN and 0 are falsy. -/
def JsNum.truthy : JsNum → Bool
  | .nan => false
  | .posInf => true
  | .negInf => true
  | .fin q => decide (q ≠ 0)

/-- JavaScript truthiness of a value: `""`, `0`, `NaN`, `false`, `null` are
falsy. -/
def Val.truthy : Val → Bool
  | .str s => decide (s ≠ "")
  | .num n => n.truthy
  | .boolean b => b
  | .null => false

/-- The key/value record a request body normalizes to.  Both `JSON.parse` (on
duplicate keys) and the FormData loop `obj[k] = v` give last-assignment-wins
semantics, so lookup returns the last binding of a key. -/
abbrev Fields := List (String × Val)

/-- Property read on the normalized body object; `none` is `undefined`. -/
def getField (f : Fields) (k : String) : Option Val :=
  (f.reverse.find? (fun p => p.1 == k)).map (fun p => p.2)

/-- The `a ?? b` operator: `b` exactly when `a` is null or undefined. -/
def nullish (a b : Option Val) : Option Val :=
  match a with
  | none => b
  | some .null => b
  | some v => some v

/-- JavaScript truthiness of a possibly-undefined value. -/
def truthyOpt : Option Val → Bool
  | none => false
  | some v => v.truthy

/-- Value of one digit character in the given base, if it is one. -/
def digitVal? (base : Nat) (c : Char) : Option Nat :=
  let v? :=
    if '0' ≤ c ∧ c ≤ '9' then some (c.toNat - '0'.toNat)
    else if 'a' ≤ c ∧ c ≤ 'f' then some (c.toNat - 'a'.toNat + 10)
    else if 'A' ≤ c ∧ c ≤ 'F' then some (c.toNat - 'A'.toNat + 10)
    else none
  match v? with
  | some d => if d < base then some d else none
  | none => none

/-- Value of a non-empty all-digit string in the given base. -/
def digitsVal? (base : Nat) (cs : List Char) : Option Nat :=
  match cs with
  | [] => none
  | _ => cs.foldlM (fun acc c => (digitVal? base c).map (fun d => acc * base + d)) 0

/-- JavaScript whitespace recognized by the string-to-number conversions. -/
def isJsSpace (c : Char) : Bool :=
  c == ' ' || c == '\t' || c == '\n' || c == '\r' || c == '\x0b' || c == '\x0c' || c == '\xa0'

/-- Leading/trailing whitespace trim performed by ToNumber / StringToBigInt. -/
def jsTrim (s : String) : String :=
  String.mk (((s.data.dropWhile isJsSpace).reverse.dropWhile isJsSpace).reverse)

/-- The `BigInt(string)` conversion (StringToBigInt): after trimming, an empty
string is 0; a `0x`/`0o`/`0b`-prefixed unsigned integer or an optionally
signed decimal integer parses; anything else (fractions, exponents, words,
stray characters) throws, modelled as `none`. -/
def bigIntOfString (s : String) : Option Int :=
  let cs := (jsTrim s).data
  match cs with
  | [] => some 0
  | '0' :: x :: rest =>
    if x == 'x' || x == 'X' then (digitsVal? 16 rest).map Int.ofNat
    else if x == 'o' || x == 'O' then (digitsVal? 8 rest).map Int.ofNat
    else if x == 'b' || x == 'B' then (digitsVal? 2 rest).map Int.ofNat
    else (digitsVal? 10 cs).map Int.ofNat
  | '+' :: rest => (digitsVal? 10 rest).map Int.ofNat
  | '-' :: rest => (digitsVal? 10 rest).map (fun n => -(Int.ofNat n))
  | _ => (digitsVal? 10 cs).map Int.ofNat

/-- Fold a digit list to its decimal value (digits already validated). -/
def digitsNat (cs : List Char) : Nat :=
  cs.foldl (fun acc c => acc * 10 + (c.toNat - '0'.toNat)) 0

/-- Optionally signed exponent digits of a decimal literal. -/
def parseExp (cs : List Char) : Option Int :=
  match cs with
  | '+' :: rest => (digitsVal? 10 rest).map Int.ofNat
  | '-' :: rest => (digitsVal? 10 rest).map (fun n => -(Int.ofNat n))
  | _ => (digitsVal? 10 cs).map Int.ofNat

/-- Unsigned decimal literal `digits[.digits][(e|E)[sign]digits]`, needing at
least one digit on some side of the point. -/
def parseDecMantissa (cs : List Char) : Option ℚ :=
  let ip := cs.takeWhile Char.isDigit
  let rest := cs.dropWhile Char.isDigit
  let fp := match rest with
    | '.' :: r => r.takeWhile Char.isDigit
    | _ => []
  let rest2 := match rest with
    | '.' :: r => r.dropWhile Char.isDigit
    | _ => rest
  if ip.isEmpty && fp.isEmpty then none
  else
    let mant : ℚ := (digitsNat ip : ℚ) + (digitsNat fp : ℚ) / ((10 : ℚ) ^ fp.length)
    match rest2 with
    | [] => some mant
    | 'e' :: r => (parseExp r).map (fun e => mant * (10 : ℚ) ^ e)
    | 'E' :: r => (parseExp r).map (fun e => mant * (10 : ℚ) ^ e)
    | _ => none

/-- The `Number(string)` conversion (ToNumber on strings): trimmed empty
string is 0; `Infinity` forms; unsigned `0x`/`0o`/`0b` integers; otherwise an
optionally signed decimal literal; anything else is NaN. -/
def strToNumber (s : String) : JsNum :=
  let cs := (jsTrim s).data
  if cs.isEmpty then .fin 0
  else if cs = "Infinity".data ∨ cs = "+Infinity".data then .posInf
  else if cs = "-Infinity".data then .negInf
  else
    let parsed : Option ℚ :=
      match cs with
      | '0' :: 'x' :: rest => (digitsVal? 16 rest).map (fun n => (n : ℚ))
      | '0' :: 'X' :: rest => (digitsVal? 16 rest).map (fun n => (n : ℚ))
      | '0' :: 'o' :: rest => (digitsVal? 8 rest).map (fun n => (n : ℚ))
      | '0' :: 'O' :: rest => (digitsVal? 8 rest).map (fun n => (n : ℚ))
      | '0' :: 'b' :: rest => (digitsVal? 2 rest).map (fun n => (n : ℚ))
      | '0' :: 'B' :: rest => (digitsVal? 2 rest).map (fun n => (n : ℚ))
      | '+' :: rest => parseDecMantissa rest
      | '-' :: rest => (parseDecMantissa rest).map (fun q => -q)
      | _ => parseDecMantissa cs
    match parsed with
    | some q => .fin q
    | none => .nan

/-- The `Number(v)` coercion on body values; `none` is `undefined`, which
coerces to NaN. -/
def jsToNumber : Option Val → JsNum
  | none => .nan
  | some (.num n) => n
  | some (.str s) => strToNumber s
  | some (.boolean b) => .fin (if b then 1 else 0)
  | some .null => .fin 0

/-- The conversion `BigInt(String(v))` as the route applies it to the product identifier.
For a finite number, `String(x)` is a plain decimal integer numeral exactly
when `x` is an integer of magnitude below `10 ^ 21` (beyond that JavaScript
switches to exponent notation, which `BigInt` rejects, as it does any
fractional rendering); every other non-string stringifies to a word (`NaN`,
`Infinity`, `true`, `false`, `null`) on which `BigInt` throws. -/
def bigIntOfVal : Option Val → Option Int
  | none => none
  | some (.str s) => bigIntOfString s
  | some (.num (.fin q)) =>
      if q.den = 1 ∧ q.num.natAbs < 10 ^ 21 then some q.num else none
  | some (.num _) => none
  | some (.boolean _) => none
  | some .null => none

/-- Decimal rendering of a finite JavaScript number.  Real JavaScript numbers
are dyadic rationals, whose decimal expansions terminate well within the
searched range, so the final fallback is unreachable on values an actual
request can carry; exponent notation for extreme magnitudes is not modelled
since no observed field renders such a number. -/
def decimalRepr (q : ℚ) : String :=
  if q.den = 1 then toString q.num
  else
    match (List.range 1101).find? (fun k => decide ((q.den : Int) ∣ 10 ^ k)) with
    | some k =>
      let n : Int := q.num * 10 ^ k / (q.den : Int)
      let ds := toString n.natAbs
      let ds := if ds.length ≤ k then
          String.mk (List.replicate (k + 1 - ds.length) '0') ++ ds
        else ds
      (if n < 0 then "-" else "") ++
        (ds.take (ds.length - k)) ++ "." ++ (ds.drop (ds.length - k))
    | none => "0"

/-- The `String(v)` coercion. -/
def jsToString : Val → String
  | .str s => s
  | .boolean b => if b then "true" else "false"
  | .null => "null"
  | .num .nan => "NaN"
  | .num .posInf => "Infinity"
  | .num .negInf => "-Infinity"
  | .num (.fin q) => decimalRepr q

/-- The review moderation status enum (prisma migration
`CREATE TYPE "ReviewStatus" AS ENUM ('pending', 'approved', 'rejected')`). -/
inductive ReviewStatus where
  | pending
  | approved
  | rejected
deriving DecidableEq, Repr

/-- Keys the generated enum object inherits from `Object.prototype` (the
standard ECMAScript set): a property read of one of these on a plain object
yields a defined — and truthy — non-enum value (a function, or the prototype
itself for `__proto__`). -/
def objectProtoKeys : List String :=
  ["constructor", "hasOwnProperty", "isPrototypeOf", "propertyIsEnumerable",
   "toLocaleString", "toString", "valueOf", "__proto__", "__defineGetter__",
   "__defineSetter__", "__lookupGetter__", "__lookupSetter__"]

/-- Result of the property read `ReviewStatus[name]` on the generated enum
object, which is a plain JavaScript object: an own key yields its enum value,
an inherited `Object.prototype` key yields a defined non-enum value, and any
other name yields `undefined`. -/
inductive StatusLookup where
  | enumVal (st : ReviewStatus)
  | protoVal
  | missing
deriving DecidableEq, Repr

/-- The runtime lookup `ReviewStatus[statusParam]` on the generated enum
object, prototype chain included. -/
def statusOfName (s : String) : StatusLookup :=
  if s = "pending" then .enumVal .pending
  else if s = "approved" then .enumVal .approved
  else if s = "rejected" then .enumVal .rejected
  else if s ∈ objectProtoKeys then .protoVal
  else .missing

/-- The value actually passed to the query as the status filter: a genuine
enum value, or an inherited prototype member that survived the `??`. -/
inductive StatusArg where
  | enumVal (st : ReviewStatus)
  | protoVal
deriving DecidableEq, Repr

/-- The coalescing `ReviewStatus[statusParam] ?? ReviewStatus.approved`: only
`undefined` falls back to the default; a defined inherited prototype member
survives it. -/
def statusCoalesced (s : String) : StatusArg :=
  match statusOfName s with
  | .enumVal st => .enumVal st
  | .protoVal => .protoVal
  | .missing => .enumVal .approved

/-- A persisted review record, with the columns of the `Review` table that
the route writes.  `createdAt` is the creation sequence number: the store is
kept in chronological order, so it equals the record's insertion position. -/
structure Review where
  shopDomain : String
  productId : Int
  productHandle : Option String
  rating : ℚ
  title : Option String
  body : String
  authorName : String
  authorEmail : Option String
  status : ReviewStatus
  createdAt : Nat
deriving DecidableEq, Repr

/-- The parts of an inbound `Request` the route reads: the four headers it
consults, the URL host and query parameters, the method, and the two possible
decodings of the raw body.  `jsonParse` is the result of parsing the body as
JSON (`none` when that parse fails); `formParse` is the form-data decoding in
field iteration order, which always succeeds. -/
structure Request where
  method : String
  hdrShopDomain : Option String
  hdrForwardedHost : Option String
  hdrHost : Option String
  contentType : Option String
  urlHost : String
  queryShop : Option String
  queryProductId : Option String
  queryProductIdCamel : Option String
  queryStatus : Option String
  jsonParse : Option Fields
  formParse : List (String × String)
deriving Repr

/-- Result of `headers.get` or `searchParams.get` passed through a
truthiness check: present and non-empty. -/
def presentNonempty (o : Option String) : Option String :=
  match o with
  | some s => if s = "" then none else some s
  | none => none

/-- JavaScript `a || b` with a possibly-null string on the left. -/
def orElseStr (o : Option String) (alt : String) : String :=
  match o with
  | some s => if s = "" then alt else s
  | none => alt

/-- Substring test, as `String.prototype.includes`. -/
def strContainsSub (s pat : String) : Bool :=
  s.data.tails.any (fun t => pat.data.isPrefixOf t)

/-- Case-insensitive suffix test, as the regex check `pat$` with the `i`
flag. -/
def endsWithCI (s pat : String) : Bool :=
  (pat.data.map Char.toLower).isSuffixOf (s.data.map Char.toLower)

/-- Tenant resolution (`getShopFromRequest`): the dedicated tenant header, then the `shop` query
parameter, then the first truthy of the forwarded-host header, the host
header and the URL host, the latter accepted only when it ends in
`.myshopify.com` case-insensitively. -/
def getShopFromRequest (r : Request) : Option String :=
  match presentNonempty r.hdrShopDomain with
  | some h => some h
  | none =>
    match presentNonempty r.queryShop with
    | some q => some q
    | none =>
      let host := orElseStr r.hdrForwardedHost (orElseStr r.hdrHost r.urlHost)
      if host ≠ "" ∧ endsWithCI host ".myshopify.com" then some host else none

/-- Body decoding (`readBody`): dispatch on the declared content type.  A declared JSON body
that fails to parse rejects the promise, which propagates to the caller
(`Except.error`); a declared form body always decodes; with any other (or no)
content type, a failed JSON parse is swallowed and yields the empty record. -/
def readBody (r : Request) : Except Unit Fields :=
  let ct := (r.contentType).getD ""
  if strContainsSub ct "application/json" then
    match r.jsonParse with
    | some f => .ok f
    | none => .error ()
  else if strContainsSub ct "application/x-www-form-urlencoded" then
    .ok (r.formParse.map (fun p => (p.1, Val.str p.2)))
  else
    match r.jsonParse with
    | some f => .ok f
    | none => .ok []

/-- A review as it appears in a response payload after `safeJson`: the
replacer passed to `JSON.stringify` turns every bigint — here the product
identifier — into its decimal string. -/
structure EncodedReview where
  shopDomain : String
  productId : String
  productHandle : Option String
  rating : ℚ
  title : Option String
  body : String
  authorName : String
  authorEmail : Option String
  status : String
  createdAt : Nat
deriving DecidableEq, Repr

/-- Wire form of a status value. -/
def encodeStatus : ReviewStatus → String
  | .pending => "pending"
  | .approved => "approved"
  | .rejected => "rejected"

/-- Serialization of one review record under `safeJson`. -/
def encodeReview (rv : Review) : EncodedReview :=
  { shopDomain := rv.shopDomain
    productId := toString rv.productId
    productHandle := rv.productHandle
    rating := rv.rating
    title := rv.title
    body := rv.body
    authorName := rv.authorName
    authorEmail := rv.authorEmail
    status := encodeStatus rv.status
    createdAt := rv.createdAt }

/-- A store operation the route performs against prisma. -/
inductive StoreOp where
  | query (shop : String) (pid : Int) (st : ReviewStatus)
  | create (rv : Review)
deriving DecidableEq, Repr

/-- The response envelope: HTTP status, `ok` flag, optional error message,
and the payload of a list or a create. -/
structure ApiResponse where
  status : Nat
  ok : Bool
  error : Option String
  reviews : Option (List EncodedReview)
  review : Option EncodedReview
deriving DecidableEq, Repr

/-- An error response carrying `ok:false` and a message. -/
def errResp (st : Nat) (msg : String) : ApiResponse :=
  { status := st, ok := false, error := some msg, reviews := none, review := none }

/-- What one request produced: the response, the store operations performed,
and the store contents afterwards. -/
structure Outcome where
  resp : ApiResponse
  ops : List StoreOp
  store : List Review
deriving Repr

/-- The query `prisma.review.findMany` with the route's arguments: filter on tenant,
product and status, order by creation time descending (the reverse of the
chronological store), take 50. -/
def findMany (store : List Review) (shop : String) (pid : Int)
    (st : ReviewStatus) : List Review :=
  ((store.filter (fun rv =>
      rv.shopDomain == shop && rv.productId == pid && rv.status == st)).reverse).take 50

/-- The list route's raw product identifier:
`searchParams.get("product_id") ?? searchParams.get("productId") ?? ""`. -/
def productIdRawOf (r : Request) : String :=
  (r.queryProductId).getD ((r.queryProductIdCamel).getD "")

/-- The list route's effective status argument:
`ReviewStatus[searchParams.get("status") ?? "approved"] ?? approved`. -/
def effectiveStatus (r : Request) : StatusArg :=
  statusCoalesced ((r.queryStatus).getD "approved")

/-- The GET handler (`loader`).  When the status argument is an inherited
prototype member rather than an enum value, `findMany` rejects it with an
exception before any query runs, and the handler's catch answers 500. -/
def loader (store : List Review) (r : Request) : Outcome :=
  match getShopFromRequest r with
  | none =>
    ⟨errResp 401 "Missing shop. Ensure you call via the App Proxy (/apps/<subpath>) or add ?shop=<domain>.",
     [], store⟩
  | some shop =>
    let productIdRaw := productIdRawOf r
    if productIdRaw = "" then ⟨errResp 400 "Missing product_id", [], store⟩
    else
      match bigIntOfString productIdRaw with
      | none => ⟨errResp 400 "Invalid product_id", [], store⟩
      | some pid =>
        match effectiveStatus r with
        | .enumVal st =>
          let reviews := findMany store shop pid st
          ⟨{ status := 200, ok := true, error := none,
             reviews := some (reviews.map encodeReview), review := none },
           [.query shop pid st], store⟩
        | .protoVal => ⟨errResp 500 "Failed to load reviews", [], store⟩

/-- The optional-field normalization `body.x ? String(body.x) : null`. -/
def optionalStr (o : Option Val) : Option String :=
  match o with
  | some v => if v.truthy then some (jsToString v) else none
  | none => none

/-- Finiteness test used in `!Number.isFinite(rating) || rating < 1 || rating > 5`. -/
def JsNum.isFinite : JsNum → Bool
  | .fin _ => true
  | _ => false

/-- JavaScript `<` against a finite constant (NaN compares false). -/
def JsNum.ltB : JsNum → ℚ → Bool
  | .nan, _ => false
  | .posInf, _ => false
  | .negInf, _ => true
  | .fin q, c => decide (q < c)

/-- JavaScript `>` against a finite constant (NaN compares false). -/
def JsNum.gtB : JsNum → ℚ → Bool
  | .nan, _ => false
  | .posInf, _ => true
  | .negInf, _ => false
  | .fin q, c => decide (q > c)

/-- The rating rejection test of the submit handler. -/
def ratingBad (n : JsNum) : Bool :=
  !n.isFinite || n.ltB 1 || n.gtB 5

/-- Finite value of a number (0 on the non-finite constructors, which the
route has excluded before using it). -/
def JsNum.toQ : JsNum → ℚ
  | .fin q => q
  | _ => 0

/-- The submit handler's raw product identifier:
`body.productId ?? body.product_id`. -/
def rawProductId (body : Fields) : Option Val :=
  nullish (getField body "productId") (getField body "product_id")

/-- The submit handler's review text: the primary `body` field when defined,
else the legacy `review` alias when defined, else the empty string. -/
def textOf (body : Fields) : String :=
  match getField body "body" with
  | some v => jsToString v
  | none =>
    match getField body "review" with
    | some v => jsToString v
    | none => ""

/-- The normalization `body.author_name ? String(body.author_name) : ""`. -/
def authorNameOf (body : Fields) : String :=
  (optionalStr (getField body "author_name")).getD ""

/-- The `data` record handed to `prisma.review.create` after validation:
status is written as the constant `pending`, never read from the body. -/
def mkReview (shop : String) (body : Fields) (pid : Int) (createdAt : Nat) : Review :=
  { shopDomain := shop
    productId := pid
    productHandle := optionalStr (getField body "product_handle")
    rating := (jsToNumber (getField body "rating")).toQ
    title := optionalStr (getField body "title")
    body := textOf body
    authorName := authorNameOf body
    authorEmail := optionalStr (getField body "author_email")
    status := .pending
    createdAt := createdAt }

/-- A JS number fits the `rating INTEGER` column (32-bit signed) exactly when
it is an integer in the i32 range; prisma rejects any other number for an
`Int` field. -/
def fitsInt32 (q : ℚ) : Bool :=
  q.den == 1 && decide (-(2 ^ 31) ≤ q.num) && decide (q.num ≤ 2 ^ 31 - 1)

/-- An integer fits the `productId BIGINT` column (64-bit signed). -/
def fitsInt64 (n : Int) : Bool :=
  decide (-(2 ^ 63) ≤ n) && decide (n ≤ 2 ^ 63 - 1)

/-- The call `prisma.review.create` against the column types declared by the
migration (`rating INTEGER`, `productId BIGINT`): a record violating them
makes the client/engine throw instead of persisting, so the store only ever
admits schema-conforming rows. -/
def prismaCreate (store : List Review) (d : Review) : Except Unit (List Review) :=
  if fitsInt32 d.rating && fitsInt64 d.productId then .ok (store ++ [d]) else .error ()

/-- The POST handler (`action`).  A create whose record violates the store's
column types throws, reaching the outer catch: 500 with nothing persisted. -/
def action (store : List Review) (r : Request) : Outcome :=
  if r.method ≠ "POST" then ⟨errResp 405 "Method not allowed", [], store⟩
  else
    match getShopFromRequest r with
    | none =>
      ⟨errResp 401 "Missing shop. Ensure you post to the App Proxy (/apps/<subpath>) or add ?shop=<domain>.",
       [], store⟩
    | some shop =>
      match readBody r with
      | .error _ => ⟨errResp 500 "Failed to submit review", [], store⟩
      | .ok body =>
        if truthyOpt (rawProductId body) = false then
          ⟨errResp 400 "product_id is required", [], store⟩
        else
          match bigIntOfVal (rawProductId body) with
          | none => ⟨errResp 400 "Invalid product_id", [], store⟩
          | some pid =>
            if ratingBad (jsToNumber (getField body "rating")) then
              ⟨errResp 400 "rating must be between 1 and 5", [], store⟩
            else if authorNameOf body = "" ∨ textOf body = "" then
              ⟨errResp 400 "author_name and body are required", [], store⟩
            else
              let created : Review := mkReview shop body pid store.length
              match prismaCreate store created with
              | .error _ => ⟨errResp 500 "Failed to submit review", [], store⟩
              | .ok newStore =>
                ⟨{ status := 200, ok := true, error := none, reviews := none,
                   review := some (encodeReview created) },
                 [.create created], newStore⟩

/-- Tenant resolution written as the amended description words it: the
dedicated tenant header, else the `shop` query parameter, else the first of
the forwarded-host header, the host header and the request URL host that is
present and non-empty, the latter accepted only with a case-insensitive
`.myshopify.com` suffix; `none` when every source is exhausted. -/
def resolveShopSpec (r : Request) : Option String :=
  (presentNonempty r.hdrShopDomain).orElse (fun _ =>
    (presentNonempty r.queryShop).orElse (fun _ =>
      match (presentNonempty r.hdrForwardedHost).orElse (fun _ =>
          (presentNonempty r.hdrHost).orElse (fun _ =>
            presentNonempty (some r.urlHost))) with
      | some h => if endsWithCI h ".myshopify.com" then some h else none
      | none => none))

/-- A POST with a valid tenant header and the given JSON body. -/
def jsonSubmitReq (b : Fields) : Request :=
  { method := "POST"
    hdrShopDomain := some "demo.myshopify.com"
    hdrForwardedHost := none
    hdrHost := none
    contentType := some "application/json"
    urlHost := "example.com"
    queryShop := none
    queryProductId := none
    queryProductIdCamel := none
    queryStatus := none
    jsonParse := some b
    formParse := [] }

/-- A fully valid submission body that also smuggles in a caller-supplied
`status` field. -/
def bodyC1 : Fields :=
  [("product_id", .str "42"), ("rating", .num (.fin 5)), ("body", .str "Great"),
   ("author_name", .str "Ana"), ("status", .str "approved")]

/-- A request carrying no tenant-identifying source at all. -/
def reqNoTenant : Request :=
  { method := "POST"
    hdrShopDomain := none
    hdrForwardedHost := none
    hdrHost := none
    contentType := none
    urlHost := "example.com"
    queryShop := none
    queryProductId := none
    queryProductIdCamel := none
    queryStatus := none
    jsonParse := some []
    formParse := [] }

/-- A request whose only tenant-identifying trace is the URL host itself. -/
def reqHostOnly : Request :=
  { method := "GET"
    hdrShopDomain := none
    hdrForwardedHost := none
    hdrHost := none
    contentType := none
    urlHost := "a.MyShopify.com"
    queryShop := none
    queryProductId := some "42"
    queryProductIdCamel := none
    queryStatus := none
    jsonParse := none
    formParse := [] }

/-- A list request with an unrecognized status name and otherwise valid
inputs. -/
def reqBogusStatus : Request :=
  { method := "GET"
    hdrShopDomain := some "demo.myshopify.com"
    hdrForwardedHost := none
    hdrHost := none
    contentType := none
    urlHost := "example.com"
    queryShop := none
    queryProductId := some "42"
    queryProductIdCamel := none
    queryStatus := some "bogus"
    jsonParse := none
    formParse := [] }

/-- A list request, otherwise valid, whose status query parameter names an
inherited `Object.prototype` key of the enum object. -/
def reqStatusToString : Request :=
  { reqBogusStatus with queryStatus := some "toString" }

/-- A submission body that is valid except for the given rating value
(absent when `none`). -/
def ratingBody (v : Option Val) : Fields :=
  [("product_id", .str "42")] ++
    (match v with
     | some x => [("rating", x)]
     | none => []) ++
    [("body", .str "Great"), ("author_name", .str "Ana")]

/-- A submission body that is valid except for the given product identifier
value (absent when `none`). -/
def pidBody (v : Option Val) : Fields :=
  (match v with
   | some x => [("product_id", x)]
   | none => []) ++
    [("rating", .num (.fin 5)), ("body", .str "Great"), ("author_name", .str "Ana")]

/-- A submit request declaring a JSON content type whose body does not
parse. -/
def reqMalformedJson : Request :=
  { jsonSubmitReq [] with jsonParse := none }

/-- A submit request with no declared content type whose body does not parse
as JSON. -/
def reqMalformedNoCT : Request :=
  { jsonSubmitReq [] with jsonParse := none, contentType := none }

/-- The round-trip submit request for a product identifier beyond safe
floating-point integer precision. -/
def reqBigIdSubmit : Request :=
  jsonSubmitReq (pidBody (some (.str "123456789012345")))

/-- The subsequent list request for that product (the review is fresh, hence
in `pending`, so the list asks for that status). -/
def reqBigIdList : Request :=
  { method := "GET"
    hdrShopDomain := some "demo.myshopify.com"
    hdrForwardedHost := none
    hdrHost := none
    contentType := none
    urlHost := "example.com"
    queryShop := none
    queryProductId := some "123456789012345"
    queryProductIdCamel := none
    queryStatus := some "pending"
    jsonParse := none
    formParse := [] }

/-- A rating the route lets through is a finite number between 1 and 5. -/
theorem ratingBad_false_bounds (n : JsNum) (h : ratingBad n = false) :
    1 ≤ n.toQ ∧ n.toQ ≤ 5 := by
  cases n with
  | nan => simp [ratingBad, JsNum.isFinite] at h
  | posInf => simp [ratingBad, JsNum.isFinite] at h
  | negInf => simp [ratingBad, JsNum.isFinite] at h
  | fin q =>
    simp [ratingBad, JsNum.isFinite, JsNum.ltB, JsNum.gtB] at h
    exact h

/-- A create the store accepted conformed to the column types and appended
exactly the record. -/
theorem prismaCreate_ok (store ns : List Review) (d : Review)
    (h : prismaCreate store d = .ok ns) :
    fitsInt32 d.rating = true ∧ fitsInt64 d.productId = true ∧ ns = store ++ [d] := by
  unfold prismaCreate at h
  by_cases hf : (fitsInt32 d.rating && fitsInt64 d.productId) = true
  · rw [if_pos hf] at h
    injection h with h2
    rw [Bool.and_eq_true] at hf
    exact ⟨hf.1, hf.2, h2.symm⟩
  · rw [if_neg hf] at h
    simp at h

/-- Case analysis on the submit handler: either it performed no store
operation and left the store alone, or it performed exactly one create of a
record built by `mkReview` from the parsed body, in status `pending`,
conforming to the store's column types, with the successful response
envelope. -/
theorem action_shape (store : List Review) (r : Request) :
    ((action store r).ops = [] ∧ (action store r).store = store ∧
     (action store r).resp.review = none) ∨
    (∃ d body,
       readBody r = .ok body ∧
       (action store r).ops = [StoreOp.create d] ∧
       (action store r).store = store ++ [d] ∧
       (action store r).resp =
         { status := 200, ok := true, error := none, reviews := none,
           review := some (encodeReview d) } ∧
       d.status = ReviewStatus.pending ∧
       bigIntOfVal (rawProductId body) = some d.productId ∧
       ratingBad (jsToNumber (getField body "rating")) = false ∧
       d.rating = (jsToNumber (getField body "rating")).toQ ∧
       fitsInt32 d.rating = true ∧
       fitsInt64 d.productId = true) := by
  by_cases hm : r.method ≠ "POST"
  · left
    simp only [action, if_pos hm]
    exact ⟨by trivial, by trivial, by trivial⟩
  · cases hshop : getShopFromRequest r with
    | none =>
      left
      simp only [action, if_neg hm, hshop]
      exact ⟨by trivial, by trivial, by trivial⟩
    | some shop =>
      cases hrb : readBody r with
      | error e =>
        left
        simp only [action, if_neg hm, hshop, hrb]
        exact ⟨by trivial, by trivial, by trivial⟩
      | ok body =>
        by_cases hpid : truthyOpt (rawProductId body) = false
        · left
          simp only [action, if_neg hm, hshop, hrb, if_pos hpid]
          exact ⟨by trivial, by trivial, by trivial⟩
        · cases hbig : bigIntOfVal (rawProductId body) with
          | none =>
            left
            simp only [action, if_neg hm, hshop, hrb, if_neg hpid, hbig]
            exact ⟨by trivial, by trivial, by trivial⟩
          | some pid =>
            by_cases hrt : ratingBad (jsToNumber (getField body "rating")) = true
            · left
              simp only [action, if_neg hm, hshop, hrb, if_neg hpid, hbig, if_pos hrt]
              exact ⟨by trivial, by trivial, by trivial⟩
            · by_cases hat : authorNameOf body = "" ∨ textOf body = ""
              · left
                simp only [action, if_neg hm, hshop, hrb, if_neg hpid, hbig, if_neg hrt,
                  if_pos hat]
                exact ⟨by trivial, by trivial, by trivial⟩
              · have hrtf : ratingBad (jsToNumber (getField body "rating")) = false := by
                  revert hrt
                  cases ratingBad (jsToNumber (getField body "rating")) <;> simp
                cases hcr : prismaCreate store (mkReview shop body pid store.length) with
                | error e2 =>
                  left
                  simp only [action, if_neg hm, hshop, hrb, if_neg hpid, hbig, if_neg hrt,
                    if_neg hat, hcr]
                  exact ⟨by trivial, by trivial, by trivial⟩
                | ok ns =>
                  right
                  obtain ⟨hf1, hf2, hns⟩ := prismaCreate_ok _ _ _ hcr
                  simp only [action, if_neg hm, hshop, hrb, if_neg hpid, hbig, if_neg hrt,
                    if_neg hat, hcr]
                  exact ⟨mkReview shop body pid store.length, body, rfl, by trivial, hns,
                    by trivial, by trivial, by trivial, hrtf, by trivial, hf1, hf2⟩

/-- JavaScript `a || b` on a nullable string agrees with defaulting the
present-and-non-empty view. -/
theorem orElseStr_eq_getD (o : Option String) (alt : String) :
    orElseStr o alt = (presentNonempty o).getD alt := by
  cases o with
  | none => rfl
  | some s =>
    by_cases h : s = "" <;> simp [orElseStr, presentNonempty, h]

/-- A value produced by the present-and-non-empty view is non-empty. -/
theorem presentNonempty_ne (o : Option String) (s : String)
    (h : presentNonempty o = some s) : s ≠ "" := by
  cases o with
  | none => simp [presentNonempty] at h
  | some t =>
    by_cases ht : t = ""
    · simp [presentNonempty, ht] at h
    · simp [presentNonempty, ht] at h
      exact h ▸ ht

/-- Claim C1: every review the submit endpoint hands to the store create is
in status `pending` — whatever status field the caller put in the body — and
the review returned in the response payload is that record, rendered with
status `"pending"`; no review is ever created in another status. -/
theorem C1_created_review_status_pending :
    ∀ (store : List Review) (r : Request) (d : Review),
      StoreOp.create d ∈ (action store r).ops →
      d.status = ReviewStatus.pending ∧
      (action store r).resp.review = some (encodeReview d) ∧
      (encodeReview d).status = "pending" := by
  intro store r d hmem
  rcases action_shape store r with ⟨hops, _, _⟩ |
    ⟨e, body, _, hops, _, hresp, hst, _, _, _, _, _⟩
  · rw [hops] at hmem
    simp at hmem
  · rw [hops] at hmem
    simp only [List.mem_singleton] at hmem
    injection hmem with h
    subst h
    refine ⟨hst, by rw [hresp], ?_⟩
    show encodeStatus d.status = "pending"
    rw [hst]
    rfl

/-- Claim C1, witness: a concrete valid submission whose body even carries
`status: "approved"` creates a review in status `pending`. -/
theorem C1_created_review_status_pending_witness :
    ∃ d, StoreOp.create d ∈ (action [] (jsonSubmitReq bodyC1)).ops ∧
      d.status = ReviewStatus.pending :=
  ⟨mkReview "demo.myshopify.com" bodyC1 42 0, by decide,
   (C1_created_review_status_pending [] (jsonSubmitReq bodyC1) _ (by decide)).1⟩

/-- Claim C2: a rating is accepted only as an integer in the inclusive range
[1,5] — every review a create ever persists has an integral rating between 1
and 5 (the route's own check admits any finite number in [1,5], but the
store's `rating INTEGER` column rejects a non-integer, as the concrete 4.5
run shows: 500, nothing persisted) — and the rating inputs 0, 6, `"abc"`,
NaN and an absent rating are each rejected with status 400 and no store
operation. -/
theorem C2_rating_integer_rule :
    (∀ (store : List Review) (r : Request) (d : Review),
       StoreOp.create d ∈ (action store r).ops →
       d.rating.den = 1 ∧ (∃ n : ℤ, d.rating = (n : ℚ)) ∧
       1 ≤ d.rating ∧ d.rating ≤ 5) ∧
    (∀ v, v = Val.num (.fin 0) ∨ v = Val.num (.fin 6) ∨ v = Val.str "abc" ∨
       v = Val.num .nan →
       (action [] (jsonSubmitReq (ratingBody (some v)))).resp =
         errResp 400 "rating must be between 1 and 5" ∧
       (action [] (jsonSubmitReq (ratingBody (some v)))).ops = []) ∧
    ((action [] (jsonSubmitReq (ratingBody none))).resp =
       errResp 400 "rating must be between 1 and 5" ∧
     (action [] (jsonSubmitReq (ratingBody none))).ops = []) ∧
    ((action [] (jsonSubmitReq (ratingBody (some (.num (.fin (mkRat 9 2))))))).resp.status
       = 500 ∧
     (action [] (jsonSubmitReq (ratingBody (some (.num (.fin (mkRat 9 2))))))).ops = [] ∧
     (action [] (jsonSubmitReq (ratingBody (some (.num (.fin (mkRat 9 2))))))).store
       = []) := by
  refine ⟨?_, ?_, by decide, by decide⟩
  · intro store r d hmem
    rcases action_shape store r with ⟨hops, _, _⟩ |
      ⟨e, body, _, hops, _, _, _, _, hrt, hrq, hf32, _⟩
    · rw [hops] at hmem
      simp at hmem
    · rw [hops] at hmem
      simp only [List.mem_singleton] at hmem
      injection hmem with h
      subst h
      have hb := ratingBad_false_bounds _ hrt
      have hden : d.rating.den = 1 := by
        simp [fitsInt32] at hf32
        exact hf32.1.1
      refine ⟨hden, ⟨d.rating.num, ((Rat.den_eq_one_iff d.rating).mp hden).symm⟩, ?_, ?_⟩
      · rw [hrq]
        exact hb.1
      · rw [hrq]
        exact hb.2
  · intro v hv
    rcases hv with rfl | rfl | rfl | rfl <;> exact ⟨by decide, by decide⟩

/-- Claim C2, witness: the concrete valid submission creates a review whose
persisted rating is the integer 5, inside [1,5]. -/
theorem C2_rating_integer_rule_witness :
    (mkReview "demo.myshopify.com" bodyC1 42 0).rating.den = 1 ∧
    1 ≤ (mkReview "demo.myshopify.com" bodyC1 42 0).rating ∧
    (mkReview "demo.myshopify.com" bodyC1 42 0).rating ≤ 5 :=
  ⟨(C2_rating_integer_rule.1 [] (jsonSubmitReq bodyC1)
      (mkReview "demo.myshopify.com" bodyC1 42 0) (by decide)).1,
   (C2_rating_integer_rule.1 [] (jsonSubmitReq bodyC1)
      (mkReview "demo.myshopify.com" bodyC1 42 0) (by decide)).2.2⟩

/-- Claim C3, counterexample: a submit request with a declared JSON content
type whose body fails to parse does not degrade to an empty field set — it
surfaces as a 500 internal error, not as the 400 missing-field error. -/
theorem C3_counterexample_json_parse_500 :
    (action [] reqMalformedJson).resp.status = 500 ∧
    (action [] reqMalformedJson).resp.error = some "Failed to submit review" ∧
    (action [] reqMalformedJson).ops = [] := by decide

/-- Claim C3 as amended: when the body fails to parse, a submit request with
an absent or unrecognized content type behaves as if the field set were
empty and is rejected by field-level validation as a missing required field
with 400; a declared JSON content type instead propagates the parse failure
to the outer handler, producing a 500.  Neither path performs a store
operation. -/
theorem C3_amended_parse_failure :
    ∀ (store : List Review) (r : Request) (shop : String),
      r.method = "POST" → getShopFromRequest r = some shop → r.jsonParse = none →
      (strContainsSub ((r.contentType).getD "") "application/json" = true →
        (action store r).resp.status = 500 ∧ (action store r).ops = [] ∧
        (action store r).store = store) ∧
      (strContainsSub ((r.contentType).getD "") "application/json" = false →
       strContainsSub ((r.contentType).getD "") "application/x-www-form-urlencoded" = false →
        (action store r).resp.status = 400 ∧
        (action store r).resp.error = some "product_id is required" ∧
        (action store r).ops = [] ∧ (action store r).store = store) := by
  intro store r shop hm hshop hjp
  have hm2 : ¬ r.method ≠ "POST" := by simp [hm]
  constructor
  · intro hct
    have hrb : readBody r = .error () := by
      simp [readBody, hct, hjp]
    simp only [action, if_neg hm2, hshop, hrb]
    exact ⟨by trivial, by trivial, by trivial⟩
  · intro hct1 hct2
    have hrb : readBody r = .ok [] := by
      simp [readBody, hct1, hct2, hjp]
    simp only [action, if_neg hm2, hshop, hrb]
    exact ⟨by trivial, by trivial, by trivial, by trivial⟩

/-- Claim C3 as amended, witness: the two concrete malformed-body requests —
one declaring JSON, one with no content type — produce 500 and 400
respectively. -/
theorem C3_amended_parse_failure_witness :
    ((action [] reqMalformedJson).resp.status = 500 ∧
     (action [] reqMalformedJson).ops = []) ∧
    ((action [] reqMalformedNoCT).resp.status = 400 ∧
     (action [] reqMalformedNoCT).resp.error = some "product_id is required") :=
  ⟨⟨((C3_amended_parse_failure [] reqMalformedJson "demo.myshopify.com" rfl (by decide) rfl).1
       (by decide)).1,
    ((C3_amended_parse_failure [] reqMalformedJson "demo.myshopify.com" rfl (by decide) rfl).1
       (by decide)).2.1⟩,
   ⟨((C3_amended_parse_failure [] reqMalformedNoCT "demo.myshopify.com" rfl (by decide) rfl).2
       (by decide) (by decide)).1,
    ((C3_amended_parse_failure [] reqMalformedNoCT "demo.myshopify.com" rfl (by decide) rfl).2
       (by decide) (by decide)).2.1⟩⟩

/-- Claim C4: when tenant resolution yields nothing, the list handler and the
submit handler (on its POST method) both answer 401 and perform no store
operation, leaving the store untouched. -/
theorem C4_no_tenant_401_no_store_op :
    ∀ (store : List Review) (r : Request),
      getShopFromRequest r = none →
      ((loader store r).resp.status = 401 ∧ (loader store r).ops = [] ∧
        (loader store r).store = store) ∧
      (r.method = "POST" →
        (action store r).resp.status = 401 ∧ (action store r).ops = [] ∧
        (action store r).store = store) := by
  intro store r h
  constructor
  · simp only [loader, h]
    exact ⟨by trivial, by trivial, by trivial⟩
  · intro hm
    have hm2 : ¬ r.method ≠ "POST" := by simp [hm]
    simp only [action, if_neg hm2, h]
    exact ⟨by trivial, by trivial, by trivial⟩

/-- Claim C4, witness: the concrete request with no tenant source at all gets
401 from both handlers, with no store operation. -/
theorem C4_no_tenant_401_no_store_op_witness :
    (loader [] reqNoTenant).resp.status = 401 ∧ (loader [] reqNoTenant).ops = [] ∧
    (action [] reqNoTenant).resp.status = 401 ∧ (action [] reqNoTenant).ops = [] :=
  ⟨((C4_no_tenant_401_no_store_op [] reqNoTenant (by decide)).1).1,
   ((C4_no_tenant_401_no_store_op [] reqNoTenant (by decide)).1).2.1,
   ((C4_no_tenant_401_no_store_op [] reqNoTenant (by decide)).2 rfl).1,
   ((C4_no_tenant_401_no_store_op [] reqNoTenant (by decide)).2 rfl).2.1⟩

/-- Claim C5, counterexample: the status name `toString` names no known
status, yet the effective filter is not `approved` and the request errors —
the lookup hits the inherited `Object.prototype.toString`, which survives
the `??` default, the query rejects it, and the response is a 500 with no
query performed. -/
theorem C5_counterexample_proto_status_500 :
    statusOfName "toString" = StatusLookup.protoVal ∧
    (loader [] reqStatusToString).resp.status = 500 ∧
    (loader [] reqStatusToString).resp.error = some "Failed to load reviews" ∧
    (loader [] reqStatusToString).ops = [] := by decide

/-- Claim C5 as amended: when the status query parameter is absent or names
a string that is neither a known status nor an inherited `Object.prototype`
key of the generated enum object, the effective filter is `approved`, every
query issued uses `approved`, and with a resolvable tenant and a valid
product identifier the request succeeds with 200; when the status names an
inherited prototype key, the lookup yields a defined non-enum value that
survives the `??` default and the request fails with 500 and no query. -/
theorem C5_amended_status_default :
    ∀ (store : List Review) (r : Request),
      ((∀ s, r.queryStatus = some s → statusOfName s = StatusLookup.missing) →
        effectiveStatus r = StatusArg.enumVal ReviewStatus.approved ∧
        (∀ shop pid st, StoreOp.query shop pid st ∈ (loader store r).ops →
          st = ReviewStatus.approved) ∧
        (∀ shop pid, getShopFromRequest r = some shop → productIdRawOf r ≠ "" →
          bigIntOfString (productIdRawOf r) = some pid →
          (loader store r).resp.status = 200)) ∧
      (∀ s, r.queryStatus = some s → statusOfName s = StatusLookup.protoVal →
        ∀ shop pid, getShopFromRequest r = some shop → productIdRawOf r ≠ "" →
          bigIntOfString (productIdRawOf r) = some pid →
          (loader store r).resp = errResp 500 "Failed to load reviews" ∧
          (loader store r).ops = []) := by
  intro store r
  constructor
  · intro hun
    have heff : effectiveStatus r = StatusArg.enumVal ReviewStatus.approved := by
      unfold effectiveStatus statusCoalesced
      cases hq : r.queryStatus with
      | none => rfl
      | some s =>
        rw [show (some s).getD "approved" = s from rfl, hun s hq]
    refine ⟨heff, ?_, ?_⟩
    · intro shop pid st hmem
      cases hshop : getShopFromRequest r with
      | none =>
        simp only [loader, hshop] at hmem
        simp at hmem
      | some sh =>
        by_cases hpe : productIdRawOf r = ""
        · simp only [loader, hshop, if_pos hpe] at hmem
          simp at hmem
        · cases hbig : bigIntOfString (productIdRawOf r) with
          | none =>
            simp only [loader, hshop, if_neg hpe, hbig] at hmem
            simp at hmem
          | some p =>
            simp only [loader, hshop, if_neg hpe, hbig, heff] at hmem
            simp only [List.mem_singleton, StoreOp.query.injEq] at hmem
            exact hmem.2.2
    · intro shop pid hshop hpe hbig
      simp only [loader, hshop, if_neg hpe, hbig, heff]
  · intro s hq hproto shop pid hshop hpe hbig
    have heff : effectiveStatus r = StatusArg.protoVal := by
      unfold effectiveStatus statusCoalesced
      rw [hq, show (some s).getD "approved" = s from rfl, hproto]
    simp only [loader, hshop, if_neg hpe, hbig, heff]
    exact ⟨by trivial, by trivial⟩

/-- Claim C5 as amended, witness: the unknown plain name `bogus` defaults to
an `approved` filter and a 200, while the prototype key `toString` yields
the 500. -/
theorem C5_amended_status_default_witness :
    effectiveStatus reqBogusStatus = StatusArg.enumVal ReviewStatus.approved ∧
    (loader [] reqBogusStatus).resp.status = 200 ∧
    (loader [] reqStatusToString).resp = errResp 500 "Failed to load reviews" :=
  ⟨((C5_amended_status_default [] reqBogusStatus).1 (by decide)).1,
   ((C5_amended_status_default [] reqBogusStatus).1 (by decide)).2.2
     "demo.myshopify.com" 42 (by decide) (by decide) (by decide),
   ((C5_amended_status_default [] reqStatusToString).2 "toString" rfl (by decide)
     "demo.myshopify.com" 42 (by decide) (by decide) (by decide)).1⟩

/-- Claim C6: the product identifier is accepted only when present under
`productId` (primary) or `product_id` and parseable as a 64-bit integer —
every created review's identifier is the `BigInt` parse of the supplied raw
value and lies in the signed 64-bit range of the `productId BIGINT` column;
a missing identifier gets the 400 error `product_id is required`, a
non-numeric one the distinct 400 error `Invalid product_id`, neither
performs a store operation; a numeric value beyond 64 bits (2^64) passes the
route's parse but the store rejects it: 500, nothing persisted. -/
theorem C6_product_id_64bit_rule :
    (∀ (store : List Review) (r : Request) (shop : String) (body : Fields),
       r.method = "POST" → getShopFromRequest r = some shop → readBody r = .ok body →
       (truthyOpt (rawProductId body) = false →
         (action store r).resp = errResp 400 "product_id is required" ∧
         (action store r).ops = []) ∧
       (truthyOpt (rawProductId body) = true → bigIntOfVal (rawProductId body) = none →
         (action store r).resp = errResp 400 "Invalid product_id" ∧
         (action store r).ops = []) ∧
       (∀ d, StoreOp.create d ∈ (action store r).ops →
         bigIntOfVal (rawProductId body) = some d.productId ∧
         -(2 ^ 63) ≤ d.productId ∧ d.productId ≤ 2 ^ 63 - 1)) ∧
    (("product_id is required" : String) ≠ "Invalid product_id") ∧
    ((action [] (jsonSubmitReq (pidBody (some (.str "18446744073709551616"))))).resp.status
       = 500 ∧
     (action [] (jsonSubmitReq (pidBody (some (.str "18446744073709551616"))))).ops = [] ∧
     (action [] (jsonSubmitReq (pidBody (some (.str "18446744073709551616"))))).store
       = []) := by
  refine ⟨?_, by decide, by decide⟩
  intro store r shop body hm hshop hrb
  have hm2 : ¬ r.method ≠ "POST" := by simp [hm]
  refine ⟨?_, ?_, ?_⟩
  · intro hmiss
    simp only [action, if_neg hm2, hshop, hrb, if_pos hmiss]
    exact ⟨by trivial, by trivial⟩
  · intro htr hinv
    have hmiss2 : ¬ truthyOpt (rawProductId body) = false := by simp [htr]
    simp only [action, if_neg hm2, hshop, hrb, if_neg hmiss2, hinv]
    exact ⟨by trivial, by trivial⟩
  · intro d hmem
    rcases action_shape store r with ⟨hops, _, _⟩ |
      ⟨e, body2, hrb2, hops, _, _, _, hbig, _, _, _, hf64⟩
    · rw [hops] at hmem
      simp at hmem
    · rw [hops] at hmem
      simp only [List.mem_singleton] at hmem
      injection hmem with h
      subst h
      have hbeq : body2 = body := by
        have := hrb2.symm.trans hrb
        injection this
      rw [hbeq] at hbig
      have hbounds : -(2 ^ 63) ≤ d.productId ∧ d.productId ≤ 2 ^ 63 - 1 := by
        simp [fitsInt64] at hf64
        exact hf64
      exact ⟨hbig, hbounds.1, hbounds.2⟩

/-- Claim C6, witness: an absent identifier gets the missing error, `"abc"`
gets the invalid error, and `"42"` parses to the created record's in-range
identifier. -/
theorem C6_product_id_64bit_rule_witness :
    ((action [] (jsonSubmitReq (pidBody none))).resp =
       errResp 400 "product_id is required" ∧
     (action [] (jsonSubmitReq (pidBody none))).ops = []) ∧
    ((action [] (jsonSubmitReq (pidBody (some (.str "abc"))))).resp =
       errResp 400 "Invalid product_id" ∧
     (action [] (jsonSubmitReq (pidBody (some (.str "abc"))))).ops = []) ∧
    (bigIntOfVal (rawProductId (pidBody (some (.str "42")))) =
       some (mkReview "demo.myshopify.com" (pidBody (some (.str "42"))) 42 0).productId ∧
     (mkReview "demo.myshopify.com" (pidBody (some (.str "42"))) 42 0).productId
       ≤ 2 ^ 63 - 1) :=
  ⟨(C6_product_id_64bit_rule.1 [] (jsonSubmitReq (pidBody none)) "demo.myshopify.com"
      (pidBody none) rfl (by decide) rfl).1 (by decide),
   (C6_product_id_64bit_rule.1 [] (jsonSubmitReq (pidBody (some (.str "abc"))))
      "demo.myshopify.com" (pidBody (some (.str "abc"))) rfl (by decide) rfl).2.1
      (by decide) (by decide),
   ⟨((C6_product_id_64bit_rule.1 [] (jsonSubmitReq (pidBody (some (.str "42"))))
       "demo.myshopify.com" (pidBody (some (.str "42"))) rfl (by decide) rfl).2.2
       (mkReview "demo.myshopify.com" (pidBody (some (.str "42"))) 42 0) (by decide)).1,
    ((C6_product_id_64bit_rule.1 [] (jsonSubmitReq (pidBody (some (.str "42"))))
       "demo.myshopify.com" (pidBody (some (.str "42"))) rfl (by decide) rfl).2.2
       (mkReview "demo.myshopify.com" (pidBody (some (.str "42"))) 42 0) (by decide)).2.2⟩⟩

/-- Claim C7: a review submitted with product identifier
`"123456789012345"` — beyond safe floating-point integer precision — is
returned by the submit response and by a subsequent list for that product
with the identical decimal string, and every encoded review renders its
64-bit identifier as the decimal string of the stored integer, never as a
numeric literal. -/
theorem C7_roundtrip_decimal_string :
    ((action [] reqBigIdSubmit).resp.review.map EncodedReview.productId) =
      some "123456789012345" ∧
    ((loader (action [] reqBigIdSubmit).store reqBigIdList).resp.reviews.map
      (fun l => l.map EncodedReview.productId)) = some ["123456789012345"] ∧
    (∀ rv : Review, (encodeReview rv).productId = toString rv.productId) :=
  ⟨by decide, by decide, fun rv => rfl⟩

/-- Claim C8, counterexample: on a request where the dedicated tenant header,
the `shop` query parameter, the forwarded-host header and the host header all
yield nothing, resolution does not fail — it falls back to the request URL
host. -/
theorem C8_counterexample_url_host_not_listed :
    getShopFromRequest reqHostOnly = some "a.MyShopify.com" ∧
    presentNonempty reqHostOnly.hdrShopDomain = none ∧
    presentNonempty reqHostOnly.queryShop = none ∧
    presentNonempty reqHostOnly.hdrForwardedHost = none ∧
    presentNonempty reqHostOnly.hdrHost = none := by decide

/-- Claim C8 as amended: tenant resolution examines, in order, the dedicated
tenant header, the `shop` query parameter, and then the first present
non-empty of the forwarded-host header, the host header and the request URL
host, that last candidate accepted only when it ends in `.myshopify.com`
case-insensitively; the first source yielding a value wins and resolution
fails only when all are exhausted — `getShopFromRequest` coincides with that
description on every request. -/
theorem C8_amended_resolution_order :
    ∀ r : Request, getShopFromRequest r = resolveShopSpec r := by
  intro r
  unfold getShopFromRequest resolveShopSpec
  cases hs : presentNonempty r.hdrShopDomain with
  | some h => rfl
  | none =>
    cases hq : presentNonempty r.queryShop with
    | some q => rfl
    | none =>
      simp only [Option.orElse]
      rw [orElseStr_eq_getD, orElseStr_eq_getD]
      cases hf : presentNonempty r.hdrForwardedHost with
      | some f =>
        have hne := presentNonempty_ne _ _ hf
        by_cases he : endsWithCI f ".myshopify.com" = true <;>
          simp [hne, he]
      | none =>
        cases hh : presentNonempty r.hdrHost with
        | some f =>
          have hne := presentNonempty_ne _ _ hh
          by_cases he : endsWithCI f ".myshopify.com" = true <;>
            simp [hne, he]
        | none =>
          by_cases hu : r.urlHost = ""
          · simp [presentNonempty, hu]
          · by_cases he : endsWithCI r.urlHost ".myshopify.com" = true <;>
              simp [presentNonempty, hu, he]

/-- Claim C9, counterexample: a product identifier that is the literal string
`"0"` is truthy in JavaScript, so the validator does not treat it as absent —
the submission succeeds with 200 and a review for product 0 is created. -/
theorem C9_counterexample_string_zero_accepted :
    (action [] (jsonSubmitReq (pidBody (some (.str "0"))))).resp.status = 200 ∧
    (action [] (jsonSubmitReq (pidBody (some (.str "0"))))).resp.ok = true ∧
    ((action [] (jsonSubmitReq (pidBody (some (.str "0"))))).store.map
      Review.productId) = [0] := by decide

/-- Claim C9 as amended: a product identifier field holding the empty string
or the number 0 is treated as not provided and rejected with the
missing-identifier 400 error and no store operation, but the string `"0"` is
truthy and accepted, creating a review with product identifier 0. -/
theorem C9_amended_zero_like_ids :
    ((action [] (jsonSubmitReq (pidBody (some (.str ""))))).resp =
       errResp 400 "product_id is required" ∧
     (action [] (jsonSubmitReq (pidBody (some (.str ""))))).ops = []) ∧
    ((action [] (jsonSubmitReq (pidBody (some (.num (.fin 0)))))).resp =
       errResp 400 "product_id is required" ∧
     (action [] (jsonSubmitReq (pidBody (some (.num (.fin 0)))))).ops = []) ∧
    ((action [] (jsonSubmitReq (pidBody (some (.str "0"))))).resp.status = 200 ∧
     ((action [] (jsonSubmitReq (pidBody (some (.str "0"))))).store.map
       Review.productId) = [0]) := by decide

/-- Claim C10: when the tenant header, the `shop` query parameter, the
forwarded-host header and the host header are all absent, resolution falls
back to the request URL host; if that host ends in `.myshopify.com`
case-insensitively, the request resolves to it and the list handler does not
answer 401. -/
theorem C10_url_host_fallback :
    ∀ (store : List Review) (r : Request),
      r.hdrShopDomain = none → r.queryShop = none →
      r.hdrForwardedHost = none → r.hdrHost = none →
      endsWithCI r.urlHost ".myshopify.com" = true →
      getShopFromRequest r = some r.urlHost ∧ (loader store r).resp.status ≠ 401 := by
  intro store r h1 h2 h3 h4 h5
  have hne : r.urlHost ≠ "" := by
    intro he
    rw [he] at h5
    exact absurd h5 (by decide)
  have hshop : getShopFromRequest r = some r.urlHost := by
    simp only [getShopFromRequest, h1, h2, h3, h4, presentNonempty, orElseStr]
    rw [if_pos ⟨hne, h5⟩]
  refine ⟨hshop, ?_⟩
  simp only [loader, hshop]
  split
  · simp [errResp]
  · split
    · simp [errResp]
    · split
      · simp
      · simp [errResp]

/-- Claim C10, witness: the concrete request whose URL host is
`a.MyShopify.com` resolves to that host and is not rejected with 401. -/
theorem C10_url_host_fallback_witness :
    getShopFromRequest reqHostOnly = some "a.MyShopify.com" ∧
    (loader [] reqHostOnly).resp.status ≠ 401 :=
  ⟨(C10_url_host_fallback [] reqHostOnly rfl rfl rfl rfl (by decide)).1,
   (C10_url_host_fallback [] reqHostOnly rfl rfl rfl rfl (by decide)).2⟩

end ReviewApp
